import Mathlib

/-!
Shallow embedding of the archSnap mesh pipeline (`src/archsnap/mesh/mesh.py`).

Python floats are modelled as exact rationals (`ℚ`); Python `round` is
modelled as round-half-to-even (`pyRound2`); `math.floor(math.log10 q)` is
modelled by Mathlib's `Int.log 10 q` (the floor of the base-10 logarithm of a
positive rational).  Fallible Python code (the `TypeError` raised by a
membership test on the integer `406`, and the `ValueError` raised by
`math.log10(0)`) is modelled with `Except PyError`.  The Blender engine is
abstracted: an engine import operation returns a set of status strings
(modelled as a `List String` parameter), and every engine-visible action of
`render_mesh` is recorded in an event trace.  The filesystem is a list of
paths that exist.
-/

/-- Axis-aligned bounding-box dimensions of a mesh (`obj.dimensions[0:3]`). -/
structure Dims where
  x : ℚ
  y : ℚ
  z : ℚ
deriving DecidableEq

/-- Model of `max([x for x in obj.dimensions[0:3]])`: the largest of the three extents. -/
def maxDim (d : Dims) : ℚ := max d.x (max d.y d.z)

/-- Uniform scaling of the bounding box: setting `obj.scale` to `s` on all
three axes and applying the transform multiplies every dimension by `s`
(for the nonnegative factors used by the code). -/
def scaleDims (d : Dims) (s : ℚ) : Dims := ⟨s * d.x, s * d.y, s * d.z⟩

/-- Python `round(q)` to an integer: round half to even. -/
def pyRound2 (q : ℚ) : ℤ :=
  if q - ⌊q⌋ < 1 / 2 then ⌊q⌋
  else if 1 / 2 < q - ⌊q⌋ then ⌊q⌋ + 1
  else if ⌊q⌋ % 2 = 0 then ⌊q⌋ else ⌊q⌋ + 1

/-- Python `round(q, n)`: round to `n` decimal places (n may be negative). -/
def pyRoundTo (q : ℚ) (n : ℤ) : ℚ := (pyRound2 (q * (10 : ℚ) ^ n) : ℚ) / (10 : ℚ) ^ n

/-- The nice-rounding of the initial scale-bar tick size in `get_mesh_args`:
`round(t, -floor(log10(t)))` (mesh.py lines 88-91). -/
def niceRound (t : ℚ) : ℚ := pyRoundTo t (-(Int.log 10 t))

/-- Python `s.replace(a, b)` for single-character patterns. -/
def replaceChar (s : String) (a b : Char) : String :=
  String.mk (s.data.map fun c => if c = a then b else c)

/-- Helper for splitting a character list at a separator character. -/
def splitOnCharAux (sep : Char) : List Char → List Char → List (List Char)
  | [], acc => [acc.reverse]
  | c :: cs, acc =>
      if c = sep then acc.reverse :: splitOnCharAux sep cs []
      else splitOnCharAux sep cs (c :: acc)

/-- Split a character list at every occurrence of `sep`. -/
def splitOnChar (sep : Char) (cs : List Char) : List (List Char) :=
  splitOnCharAux sep cs []

/-- Model of `pathlib.Path(p).name`: the final path component. -/
def pathName (p : String) : String :=
  String.mk ((splitOnChar '/' p.data).getLastD [])

/-- Index of the last dot in a character list, if any. -/
def lastDotIndex (cs : List Char) : Option Nat :=
  ((cs.enum.filter fun pr => pr.2 = '.').map Prod.fst).getLast?

/-- Model of `pathlib.PurePath.suffix` of a file name: the extension of the final
component, computed from the last dot, empty when the dot is leading or
trailing or absent. -/
def pySuffix (name : String) : String :=
  match lastDotIndex name.data with
  | some i =>
      if 0 < i ∧ i + 1 < name.data.length then String.mk (name.data.drop i) else ""
  | none => ""

/-- Model of `pathlib.PurePath.stem` of a file name: the final component without its
suffix. -/
def pyStem (name : String) : String :=
  match lastDotIndex name.data with
  | some i =>
      if 0 < i ∧ i + 1 < name.data.length then String.mk (name.data.take i) else name
  | none => name

/-- Drop trailing `'0'` characters. -/
def stripTrailingZeros (cs : List Char) : List Char :=
  (cs.reverse.dropWhile fun c => c = '0').reverse

/-- Zero-pad the decimal digits of `n` on the left to four characters. -/
def pad4 (n : Nat) : String :=
  String.mk (List.replicate (4 - (toString n).length) '0') ++ toString n

/-- Python `str` of the float `z / 10^4` (the result of `round(t, 4)`):
integer part, then the fractional digits with trailing zeros removed, with a
lone `.0` kept when the value is integral. -/
def floatStr4 (z : ℤ) : String :=
  let sign := if z < 0 then "-" else ""
  let n := z.natAbs
  let ip := n / 10000
  let fp := n % 10000
  if fp = 0 then sign ++ toString ip ++ ".0"
  else sign ++ toString ip ++ "." ++ String.mk (stripTrailingZeros (pad4 fp).data)

/-- The string form of `label_tick_size` (mesh.py lines 251-255):
`round(t)` when `t.is_integer()`, else `round(t, 4)`, rendered as Python
`str` renders it. -/
def labelTickStr (t : ℚ) : String :=
  if (⌊t⌋ : ℚ) = t then toString ⌊t⌋ else floatStr4 (pyRound2 (t * 10000))

/-- The label body written to the four label/stroke objects
(`f"{label_tick_size} cm"`, mesh.py line 268). -/
def labelText (t : ℚ) : String := labelTickStr t ++ " cm"

/-- An exception escaping the modelled Python code. -/
inductive PyError where
  | typeError (msg : String)
  | valueError (msg : String)
deriving DecidableEq

instance {ε α : Type} [DecidableEq ε] [DecidableEq α] : DecidableEq (Except ε α)
  | .error a, .error b =>
      if h : a = b then .isTrue (congrArg Except.error h)
      else .isFalse fun hc => h (Except.error.inj hc)
  | .error _, .ok _ => .isFalse fun hc => Except.noConfusion hc
  | .ok _, .error _ => .isFalse fun hc => Except.noConfusion hc
  | .ok a, .ok b =>
      if h : a = b then .isTrue (congrArg Except.ok h)
      else .isFalse fun hc => h (Except.ok.inj hc)

/-- The result of `import_mesh`: either the status-string set returned by the
engine import operator, or the bare integer `406`. -/
inductive ImportOutcome where
  | engine (result : List String)
  | code (n : Nat)
deriving DecidableEq

/-- Engine-visible actions of `render_mesh`, in program order. -/
inductive Event where
  | mkdirEv (path : String)
  | openScene
  | importAttempt (ext : String)
  | engineImportOp (ext : String)
  | composeScene
  | assignMaterial
  | renderFrame (i : Nat)
  | saveImage (path : String)
  | quitEngine
deriving DecidableEq

/-- Model of import_mesh (mesh.py lines 21-40): dispatch on the path suffix; the four
supported extensions invoke the matching engine import operator (whose status
set is the parameter `engineResult`); any other extension returns `406`
without touching the engine.  The second component lists the engine
importing operations performed. -/
def importMesh (ext : String) (engineResult : List String) :
    ImportOutcome × List Event :=
  match ext with
  | ".ply" => (.engine engineResult, [.engineImportOp ".ply"])
  | ".obj" => (.engine engineResult, [.engineImportOp ".obj"])
  | ".stl" => (.engine engineResult, [.engineImportOp ".stl"])
  | ".dae" => (.engine engineResult, [.engineImportOp ".dae"])
  | _ => (.code 406, [])

/-- The membership test `"FINISHED" in import_result` (mesh.py lines 54 and
180).  On a status set it is an ordinary membership test; on the integer
`406` Python raises `TypeError: argument of type int is not iterable`. -/
def finishedCheck : ImportOutcome → Except PyError Bool
  | .engine r => .ok (r.contains "FINISHED")
  | .code _ => .error (.typeError "argument of type int is not iterable")

/-- Model of get_mesh_args (mesh.py lines 43-103): it imports the mesh, and on success
return the dimensions together with the nice-rounded initial scale-bar tick
size `round(max(dims)/10, -floor(log10(max(dims)/10)))`.  `math.log10`
raises `ValueError: math domain error` on a non-positive argument, which is
the `t0 ≤ 0` branch here.  A reported import failure returns `(None, None)`,
modelled as `Option.none`. -/
def getMeshArgs (mesh_path : String) (engineResult : List String) (d : Dims) :
    Except PyError (Option (Dims × ℚ)) :=
  let imp := importMesh (pySuffix (pathName mesh_path)) engineResult
  match finishedCheck imp.1 with
  | .error e => .error e
  | .ok true =>
      let t0 := maxDim d / 10
      if t0 ≤ 0 then .error (.valueError "math domain error")
      else .ok (some (d, niceRound t0))
  | .ok false => .ok none

/-- The mesh queue item consumed by `render_mesh` (custom_types.py), with
`scalebar_tick_size` already parsed by `float(...)`. -/
structure MeshQueueItem where
  mesh_path : String
  output_path : String
  separate_output_directories : Bool
  use_eevee : Bool
  render_resolution : Nat
  object_scale_factor : ℚ
  scalebar_tick_size : ℚ
  object_colour : String
  index : Nat

/-- The resolved output directory (mesh.py lines 119-122): when separate
output directories are enabled, nest `{index}_{mesh name with dots replaced
by underscores}` beneath the configured output root. -/
def resolvedOutputPath (job : MeshQueueItem) : String :=
  if job.separate_output_directories then
    job.output_path ++ "/" ++ toString job.index ++ "_"
      ++ replaceChar (pathName job.mesh_path) '.' '_'
  else job.output_path

/-- All proper ancestor directories of a slash-separated path. -/
def ancestors (p : String) : List String :=
  let cs := (splitOnChar '/' p.data).map String.mk
  (List.range (cs.length - 1)).map fun k =>
    String.intercalate "/" (cs.take (k + 1))

/-- Model of `pathlib.Path.mkdir(parents, exist_ok)` over a filesystem modelled as the
list of existing paths: an existing target raises `FileExistsError` unless
`exist_ok`; a missing parent raises `FileNotFoundError` unless `parents`,
which creates every missing ancestor. -/
def mkdirSem (fs : List String) (p : String) (parents existOk : Bool) :
    Except String (List String) :=
  if p ∈ fs then
    if existOk then .ok fs else .error "FileExistsError"
  else if parents then
    .ok (fs ++ (ancestors p).filter (fun a => decide (a ∉ fs)) ++ [p])
  else if (ancestors p).all (fun a => decide (a ∈ fs)) then .ok (fs ++ [p])
  else .error "FileNotFoundError"

/-- The reconciliation decision of `render_mesh` (mesh.py lines 200-241). -/
structure ReconcilePlan where
  defaultTick : ℚ
  unitRescale : ℚ
  objectRescale : ℚ
  scalebarRescale : ℚ
  objectBranch : Bool
deriving DecidableEq

/-- The scale-reconciliation step of `render_mesh`, translated line by line:
after the user scale factor is applied (line 201), the default tick size is
computed from the dimensions at that point (line 207), the object is rescaled
so its largest dimension becomes 10 (lines 211-214), and the branch at line
217 compares the requested tick against the line-207 default: if larger, the
object is shrunk by `default/requested` and the scale-bar factor stays `1.0`;
otherwise the scale-bar is shrunk by `requested/default` and the object keeps
its unit-normalized scale. -/
def renderReconcile (d : Dims) (objectScaleFactor tick : ℚ) : ReconcilePlan :=
  let scaled := scaleDims d objectScaleFactor
  let defaultTick := maxDim scaled / 10
  let unitRescale := 1 / maxDim scaled * 10
  if tick > defaultTick then
    { defaultTick := defaultTick, unitRescale := unitRescale,
      objectRescale := defaultTick / tick, scalebarRescale := 1,
      objectBranch := true }
  else
    { defaultTick := defaultTick, unitRescale := unitRescale,
      objectRescale := 1, scalebarRescale := tick / defaultTick,
      objectBranch := false }

/-- The default tick size recomputed for the unit-normalized object, as the
spec describes it: the largest dimension after the rescale of step 3,
divided by 10 (mechanically `1.0` for a nondegenerate object). -/
def specPostRescaleDefaultTick (d : Dims) (s : ℚ) : ℚ :=
  maxDim (scaleDims (scaleDims d s) (1 / maxDim (scaleDims d s) * 10)) / 10

/-- Reconciliation as the spec's words describe it (spec steps 4-5): the
requested tick is compared against the default tick recomputed after the
unit-normalization rescale.  Kept for comparison with `renderReconcile`. -/
def specReconcile (d : Dims) (s tick : ℚ) : ReconcilePlan :=
  let dt := specPostRescaleDefaultTick d s
  if tick > dt then
    { defaultTick := dt, unitRescale := 1 / maxDim (scaleDims d s) * 10,
      objectRescale := dt / tick, scalebarRescale := 1, objectBranch := true }
  else
    { defaultTick := dt, unitRescale := 1 / maxDim (scaleDims d s) * 10,
      objectRescale := 1, scalebarRescale := tick / dt, objectBranch := false }

/-- A text object of the template scene (label or stroke). -/
structure LabelObj where
  name : String
  body : String
deriving DecidableEq

/-- The four label/stroke objects after the loop at mesh.py lines 259-268:
every one of them receives the same body `f"{label_tick_size} cm"`. -/
def composeLabels (tick : ℚ) : List LabelObj :=
  [ { name := "Scale Label Left", body := labelText tick },
    { name := "Scale Label Bottom", body := labelText tick },
    { name := "Scale Stroke Left", body := labelText tick },
    { name := "Scale Stroke Bottom", body := labelText tick } ]

/-- The render path of frame `i` (mesh.py lines 305-309):
`{name with dots replaced by underscores}_render_{i}_tick_length_{label with
dots replaced by dashes}cm.png` under the resolved output directory. -/
def imagePath (job : MeshQueueItem) (i : Nat) : String :=
  resolvedOutputPath job ++ "/" ++ replaceChar (pathName job.mesh_path) '.' '_'
    ++ "_render_" ++ toString i ++ "_tick_length_"
    ++ replaceChar (labelTickStr job.scalebar_tick_size) '.' '-' ++ "cm.png"

/-- Observable result of one `render_mesh` worker run. -/
structure RenderRun where
  trace : List Event
  fs : List String
  images : List String
  crashed : Option PyError
  plan : Option ReconcilePlan
  labels : List LabelObj

/-- Model of render_mesh (mesh.py lines 106-315) over the abstracted engine: resolve
the output directory and create it (lines 119-124), open the template scene
(line 130), import the mesh (line 177), and on `"FINISHED"` run the
reconciliation, compose the labels, assign the material and render the six
frames (lines 180-312), finally quitting the engine (line 315).  When the
status check raises (unsupported extension, so `import_mesh` returned `406`),
the exception propagates and nothing after line 180 runs, the engine quit
included. -/
def runRenderMesh (fs0 : List String) (job : MeshQueueItem)
    (engineResult : List String) (d : Dims) : RenderRun :=
  let outDir := resolvedOutputPath job
  let fs1 := match mkdirSem fs0 outDir true true with
    | .ok fs => fs
    | .error _ => fs0
  let ext := pySuffix (pathName job.mesh_path)
  let imp := importMesh ext engineResult
  let baseTrace := [Event.mkdirEv outDir, Event.openScene, Event.importAttempt ext]
    ++ imp.2
  match finishedCheck imp.1 with
  | .error e =>
      { trace := baseTrace, fs := fs1, images := [], crashed := some e,
        plan := none, labels := [] }
  | .ok false =>
      { trace := baseTrace ++ [Event.quitEngine], fs := fs1, images := [],
        crashed := none, plan := none, labels := [] }
  | .ok true =>
      let plan := renderReconcile d job.object_scale_factor job.scalebar_tick_size
      let imgs := (List.range 6).map fun k => imagePath job (k + 1)
      { trace := baseTrace ++ [Event.composeScene, Event.assignMaterial]
          ++ ((List.range 6).flatMap fun k =>
                [Event.renderFrame (k + 1), Event.saveImage (imagePath job (k + 1))])
          ++ [Event.quitEngine],
        fs := fs1 ++ imgs, images := imgs, crashed := none,
        plan := some plan, labels := composeLabels job.scalebar_tick_size }

/-- A job whose mesh has an unsupported extension, used to evaluate the
pipeline at a concrete failing input. -/
def jobXyz : MeshQueueItem :=
  { mesh_path := "meshes/artefact.xyz", output_path := "out",
    separate_output_directories := false, use_eevee := true,
    render_resolution := 512, object_scale_factor := 1,
    scalebar_tick_size := 1, object_colour := "#aabbcc", index := 0 }

/-- A job with a supported mesh, used for concrete evaluations of the
successful pipeline. -/
def jobPot : MeshQueueItem :=
  { mesh_path := "pot.ply", output_path := "out",
    separate_output_directories := false, use_eevee := true,
    render_resolution := 512, object_scale_factor := 1,
    scalebar_tick_size := 1, object_colour := "#aabbcc", index := 0 }

/-- A job with separate output directories enabled, used as a concrete
instance for the output-directory claims. -/
def jobSep : MeshQueueItem :=
  { mesh_path := "pot.ply", output_path := "out",
    separate_output_directories := true, use_eevee := true,
    render_resolution := 512, object_scale_factor := 1,
    scalebar_tick_size := 1, object_colour := "#aabbcc", index := 3 }

/-! ## Helper lemmas -/

theorem intLog10_eq {q : ℚ} {n : ℤ} (hq : 0 < q) (h1 : (10 : ℚ) ^ n ≤ q)
    (h2 : q < (10 : ℚ) ^ (n + 1)) : Int.log 10 q = n :=
  le_antisymm (Int.lt_add_one_iff.mp ((Int.lt_zpow_iff_log_lt (by norm_num) hq).mp h2))
    ((Int.zpow_le_iff_le_log (by norm_num) hq).mp h1)

theorem pyRound2_of_lt {q : ℚ} {f : ℤ} (hf : ⌊q⌋ = f) (h : q - f < 1 / 2) :
    pyRound2 q = f := by
  unfold pyRound2
  rw [hf, if_pos h]

theorem pyRound2_of_gt {q : ℚ} {f : ℤ} (hf : ⌊q⌋ = f) (h : 1 / 2 < q - f) :
    pyRound2 q = f + 1 := by
  unfold pyRound2
  rw [hf, if_neg (by linarith), if_pos h]

theorem maxDim_scaleDims (d : Dims) {s : ℚ} (h : 0 ≤ s) :
    maxDim (scaleDims d s) = s * maxDim d := by
  unfold maxDim scaleDims
  rw [mul_max_of_nonneg _ _ h, mul_max_of_nonneg _ _ h]

theorem importMesh_supported {ext : String} (h : ext ∈ [".ply", ".obj", ".stl", ".dae"])
    (engineResult : List String) :
    importMesh ext engineResult = (.engine engineResult, [.engineImportOp ext]) := by
  fin_cases h <;> rfl

theorem mkdirSem_total (fs : List String) (p : String) :
    ∃ fs2, mkdirSem fs p true true = .ok fs2 ∧ p ∈ fs2 ∧ fs ⊆ fs2
      ∧ (∀ f ∈ fs2, f ∈ fs ∨ f ∈ ancestors p ∨ f = p)
      ∧ mkdirSem fs2 p true true = .ok fs2 := by
  by_cases hp : p ∈ fs
  · refine ⟨fs, ?_, hp, List.Subset.refl _, fun f hf => Or.inl hf, ?_⟩ <;>
      simp [mkdirSem, hp]
  · refine ⟨fs ++ (ancestors p).filter (fun a => decide (a ∉ fs)) ++ [p],
      ?_, ?_, ?_, ?_, ?_⟩
    · simp [mkdirSem, hp]
    · simp
    · intro x hx
      simp [hx]
    · intro f hf
      rcases List.mem_append.mp hf with hf | hf
      · rcases List.mem_append.mp hf with hf | hf
        · exact Or.inl hf
        · exact Or.inr (Or.inl (List.mem_of_mem_filter hf))
      · simp only [List.mem_singleton] at hf
        exact Or.inr (Or.inr hf)
    · simp [mkdirSem]

/-! ## Claims -/

/-- C1 (counterexample): the default tick size that `render_mesh` compares the
requested tick against is NOT the post-rescale recomputed default (which is
mechanically `1.0`): for a mesh with bounding box `2×2×2` and user scale `1`
the compared default is `1/5`, and with requested tick `1/2` the code takes
the object-rescale branch while a comparison against the post-rescale default
`1.0` would take the scale-bar branch. -/
theorem C1_tick_recompute_counterexample :
    (renderReconcile ⟨2, 2, 2⟩ 1 (1 / 2)).defaultTick = 1 / 5
    ∧ specPostRescaleDefaultTick ⟨2, 2, 2⟩ 1 = 1
    ∧ (renderReconcile ⟨2, 2, 2⟩ 1 (1 / 2)).defaultTick
        ≠ specPostRescaleDefaultTick ⟨2, 2, 2⟩ 1
    ∧ (renderReconcile ⟨2, 2, 2⟩ 1 (1 / 2)).objectBranch = true
    ∧ (specReconcile ⟨2, 2, 2⟩ 1 (1 / 2)).objectBranch = false := by
  norm_num [renderReconcile, specReconcile, specPostRescaleDefaultTick, maxDim,
    scaleDims]

/-- C1 (amended): in `render_mesh` the default scale-bar tick size used for
branch selection is computed after the user scale factor is applied but
before the unit-normalization rescale, as `max(dimensions)/10` of that
scaled object, and the requested tick is compared against this pre-rescale
default; recomputing the default after the rescale would instead give
exactly `1.0` for any nondegenerate object. -/
theorem C1_default_tick_pre_rescale (d : Dims) (s t : ℚ)
    (h : 0 < maxDim (scaleDims d s)) :
    (renderReconcile d s t).defaultTick = maxDim (scaleDims d s) / 10
    ∧ ((renderReconcile d s t).objectBranch = true
        ↔ maxDim (scaleDims d s) / 10 < t)
    ∧ specPostRescaleDefaultTick d s = 1 := by
  refine ⟨?_, ?_, ?_⟩
  · simp only [renderReconcile]
    split <;> rfl
  · simp only [renderReconcile]
    split
    · simpa using ‹t > maxDim (scaleDims d s) / 10›
    · simpa using ‹¬t > maxDim (scaleDims d s) / 10›
  · have h0 : (0 : ℚ) ≤ 1 / maxDim (scaleDims d s) * 10 :=
      mul_nonneg (le_of_lt (one_div_pos.mpr h)) (by norm_num)
    unfold specPostRescaleDefaultTick
    rw [maxDim_scaleDims _ h0]
    field_simp

/-- C1 amended, witness at a concrete input. -/
theorem C1_default_tick_pre_rescale_witness :
    0 < maxDim (scaleDims ⟨2, 3, 4⟩ 1)
    ∧ ((renderReconcile ⟨2, 3, 4⟩ 1 7).defaultTick = maxDim (scaleDims ⟨2, 3, 4⟩ 1) / 10
       ∧ ((renderReconcile ⟨2, 3, 4⟩ 1 7).objectBranch = true
            ↔ maxDim (scaleDims ⟨2, 3, 4⟩ 1) / 10 < 7)
       ∧ specPostRescaleDefaultTick ⟨2, 3, 4⟩ 1 = 1) :=
  ⟨by norm_num [maxDim, scaleDims],
   C1_default_tick_pre_rescale ⟨2, 3, 4⟩ 1 7 (by norm_num [maxDim, scaleDims])⟩

/-- C2: branch selection in `render_mesh` is deterministic and mutually
exclusive.  If the requested tick is strictly greater than the default tick,
the object rescale factor is `default/requested`, which is `< 1`, and the
scale-bar rescale factor is exactly `1`; otherwise (the tie included, because
the comparison at line 217 is a strict `>`) the scale-bar rescale factor is
`requested/default` (`1` on a tie) and the object keeps its unit-normalized
scale (`objectRescale = 1`). -/
theorem C2_branch_selection (d : Dims) (s t : ℚ) (ht : 0 < t) :
    ((renderReconcile d s t).defaultTick < t →
        (renderReconcile d s t).objectBranch = true
        ∧ (renderReconcile d s t).objectRescale
            = (renderReconcile d s t).defaultTick / t
        ∧ (renderReconcile d s t).objectRescale < 1
        ∧ (renderReconcile d s t).scalebarRescale = 1)
    ∧ (t ≤ (renderReconcile d s t).defaultTick →
        (renderReconcile d s t).objectBranch = false
        ∧ (renderReconcile d s t).scalebarRescale
            = t / (renderReconcile d s t).defaultTick
        ∧ (renderReconcile d s t).objectRescale = 1
        ∧ (t = (renderReconcile d s t).defaultTick →
            (renderReconcile d s t).scalebarRescale = 1)) := by
  simp only [renderReconcile]
  split
  · rename_i hgt
    refine ⟨fun _ => ⟨rfl, rfl, (div_lt_one ht).mpr hgt, rfl⟩, fun hle => ?_⟩
    exact absurd hgt (not_lt.mpr hle)
  · rename_i hng
    refine ⟨fun hlt => absurd hlt (by simpa using hng), fun _ => ⟨rfl, rfl, rfl, ?_⟩⟩
    intro htie
    rw [htie]
    exact div_self (ne_of_gt (htie ▸ ht))

/-- C2, witness at a concrete input. -/
theorem C2_branch_selection_witness :
    0 < (1 : ℚ)
    ∧ (((renderReconcile ⟨2, 3, 4⟩ 1 1).defaultTick < 1 →
        (renderReconcile ⟨2, 3, 4⟩ 1 1).objectBranch = true
        ∧ (renderReconcile ⟨2, 3, 4⟩ 1 1).objectRescale
            = (renderReconcile ⟨2, 3, 4⟩ 1 1).defaultTick / 1
        ∧ (renderReconcile ⟨2, 3, 4⟩ 1 1).objectRescale < 1
        ∧ (renderReconcile ⟨2, 3, 4⟩ 1 1).scalebarRescale = 1)
      ∧ (1 ≤ (renderReconcile ⟨2, 3, 4⟩ 1 1).defaultTick →
        (renderReconcile ⟨2, 3, 4⟩ 1 1).objectBranch = false
        ∧ (renderReconcile ⟨2, 3, 4⟩ 1 1).scalebarRescale
            = 1 / (renderReconcile ⟨2, 3, 4⟩ 1 1).defaultTick
        ∧ (renderReconcile ⟨2, 3, 4⟩ 1 1).objectRescale = 1
        ∧ (1 = (renderReconcile ⟨2, 3, 4⟩ 1 1).defaultTick →
            (renderReconcile ⟨2, 3, 4⟩ 1 1).scalebarRescale = 1))) :=
  ⟨by norm_num, C2_branch_selection ⟨2, 3, 4⟩ 1 1 (by norm_num)⟩

/-- C3 (code evaluated at the failing input): for an unsupported extension
`import_mesh` returns `406` without invoking any engine import operation,
but neither caller reports this as a structured failure: the membership
test at `"FINISHED" in import_result` raises a `TypeError` in
`get_mesh_args` and in `render_mesh` alike, so the pipeline crashes instead
of failing fast with the distinct condition. -/
theorem C3_unsupported_extension_crash (engineResult : List String) :
    importMesh ".xyz" engineResult = (.code 406, [])
    ∧ getMeshArgs "meshes/artefact.xyz" engineResult ⟨1, 1, 1⟩
        = .error (.typeError "argument of type int is not iterable")
    ∧ (runRenderMesh [] jobXyz engineResult ⟨1, 1, 1⟩).crashed
        = some (.typeError "argument of type int is not iterable") :=
  ⟨rfl, rfl, rfl⟩

/-- C4 (code evaluated at the failing input): a mesh with a degenerate
zero-extent bounding box drives `max(dims)/10` to `0`, and `get_mesh_args`
raises the `math.log10` domain error instead of reporting a validation
failure before reconciliation. -/
theorem C4_degenerate_mesh_crash :
    getMeshArgs "cube.ply" ["FINISHED"] ⟨0, 0, 0⟩
      = .error (.valueError "math domain error") := by
  show (if maxDim (Dims.mk 0 0 0) / 10 ≤ 0 then
          (Except.error (PyError.valueError "math domain error"))
        else Except.ok (some (Dims.mk 0 0 0, niceRound (maxDim (Dims.mk 0 0 0) / 10))))
      = .error (.valueError "math domain error")
  rw [if_pos (by norm_num [maxDim])]

/-- C5: the nice-rounding `round(t, -floor(log10(t)))` of the initial
scale-bar tick size rounds to the most significant digit:
`215 ↦ 200`, `325 ↦ 300`, `0.0042 ↦ 0.004`. -/
theorem C5_nice_rounding :
    niceRound 215 = 200 ∧ niceRound 325 = 300
    ∧ niceRound (21 / 5000) = 1 / 250 := by
  refine ⟨?_, ?_, ?_⟩
  · unfold niceRound pyRoundTo
    rw [show Int.log 10 (215 : ℚ) = 2 from
      intLog10_eq (by norm_num) (by norm_num) (by norm_num)]
    rw [pyRound2_of_lt (f := 2) (by rw [Int.floor_eq_iff]; norm_num)
      (by push_cast; norm_num)]
    norm_num
  · unfold niceRound pyRoundTo
    rw [show Int.log 10 (325 : ℚ) = 2 from
      intLog10_eq (by norm_num) (by norm_num) (by norm_num)]
    rw [pyRound2_of_lt (f := 3) (by rw [Int.floor_eq_iff]; norm_num)
      (by push_cast; norm_num)]
    norm_num
  · unfold niceRound pyRoundTo
    rw [show Int.log 10 (21 / 5000 : ℚ) = -3 from
      intLog10_eq (by norm_num) (by norm_num) (by norm_num)]
    rw [pyRound2_of_lt (f := 4) (by rw [Int.floor_eq_iff]; norm_num)
      (by push_cast; norm_num)]
    norm_num

/-- C6 (counterexample): the rendered file names are built from the full mesh
file name with dots replaced by underscores, not from the mesh stem: for
`pot.ply` the first frame is `pot_ply_render_1_tick_length_1cm.png`, and no
output file uses the stem-based name `pot_render_1_tick_length_1cm.png`. -/
theorem C6_stem_name_counterexample :
    pyStem (pathName jobPot.mesh_path) = "pot"
    ∧ (runRenderMesh [] jobPot ["FINISHED"] ⟨2, 2, 2⟩).images.length = 6
    ∧ (runRenderMesh [] jobPot ["FINISHED"] ⟨2, 2, 2⟩).images.head?
        = some "out/pot_ply_render_1_tick_length_1cm.png"
    ∧ resolvedOutputPath jobPot ++ "/" ++ pyStem (pathName jobPot.mesh_path)
        ++ "_render_1_tick_length_1cm.png"
        ∉ (runRenderMesh [] jobPot ["FINISHED"] ⟨2, 2, 2⟩).images := by
  refine ⟨by decide, by decide, by decide, by decide⟩

/-- C6 (amended): for every successfully imported job, `render_mesh` produces
exactly 6 output images, one per frame index 1 through 6, each named
`{mesh file name with dots replaced by underscores}_render_{frame}_tick_length_{tick
label with dots replaced by dashes}cm.png` under the job's resolved output
directory (see `imagePath`), and the worker does not crash. -/
theorem C6_six_named_images (fs0 : List String) (job : MeshQueueItem)
    (engineResult : List String) (d : Dims)
    (hext : pySuffix (pathName job.mesh_path) ∈ [".ply", ".obj", ".stl", ".dae"])
    (hfin : "FINISHED" ∈ engineResult) :
    (runRenderMesh fs0 job engineResult d).images
      = [imagePath job 1, imagePath job 2, imagePath job 3,
         imagePath job 4, imagePath job 5, imagePath job 6]
    ∧ (runRenderMesh fs0 job engineResult d).crashed = none := by
  obtain ⟨fs2, h1, -, -, -, -⟩ := mkdirSem_total fs0 (resolvedOutputPath job)
  have hc : engineResult.contains "FINISHED" = true := List.elem_eq_true_of_mem hfin
  simp only [runRenderMesh, h1, importMesh_supported hext, finishedCheck, hc]
  exact ⟨rfl, trivial⟩

/-- C6 amended, witness at a concrete input. -/
theorem C6_six_named_images_witness :
    pySuffix (pathName jobPot.mesh_path) ∈ [".ply", ".obj", ".stl", ".dae"]
    ∧ "FINISHED" ∈ ["FINISHED"]
    ∧ ((runRenderMesh [] jobPot ["FINISHED"] ⟨2, 2, 2⟩).images
        = [imagePath jobPot 1, imagePath jobPot 2, imagePath jobPot 3,
           imagePath jobPot 4, imagePath jobPot 5, imagePath jobPot 6]
       ∧ (runRenderMesh [] jobPot ["FINISHED"] ⟨2, 2, 2⟩).crashed = none) :=
  ⟨by decide, by decide,
   C6_six_named_images [] jobPot ["FINISHED"] ⟨2, 2, 2⟩ (by decide) (by decide)⟩

/-- C7: every one of the four label/stroke objects receives the same body,
`str(round(t)) + " cm"` when the requested tick size is integral and
`str(round(t, 4)) + " cm"` otherwise; tick size `5.0` yields `"5 cm"` and
tick size `3.14159265` yields `"3.1416 cm"`. -/
theorem C7_label_text (t : ℚ) :
    (composeLabels t).map LabelObj.body
      = [labelText t, labelText t, labelText t, labelText t]
    ∧ labelText 5 = "5 cm"
    ∧ labelText (314159265 / 100000000) = "3.1416 cm" := by
  refine ⟨rfl, by decide, ?_⟩
  have hne : ¬((⌊(314159265 / 100000000 : ℚ)⌋ : ℚ) = 314159265 / 100000000) := by
    rw [show ⌊(314159265 / 100000000 : ℚ)⌋ = 3 by rw [Int.floor_eq_iff]; norm_num]
    norm_num
  unfold labelText labelTickStr
  rw [if_neg hne, pyRound2_of_gt (f := 31415) (by rw [Int.floor_eq_iff]; norm_num)
    (by push_cast; norm_num)]
  decide

/-- C8: with separate output directories enabled the resolved output
directory is `{index}_{mesh file name with dots replaced by underscores}`
nested beneath the output root, and `mkdir(parents=True, exist_ok=True)`
always succeeds and is idempotent: creating the directory a second time,
when it already exists, succeeds and leaves the filesystem unchanged. -/
theorem C8_output_directory (job : MeshQueueItem) (fs : List String)
    (h : job.separate_output_directories = true) :
    resolvedOutputPath job
      = job.output_path ++ "/" ++ toString job.index ++ "_"
        ++ replaceChar (pathName job.mesh_path) '.' '_'
    ∧ ∃ fs2, mkdirSem fs (resolvedOutputPath job) true true = .ok fs2
        ∧ resolvedOutputPath job ∈ fs2
        ∧ mkdirSem fs2 (resolvedOutputPath job) true true = .ok fs2 := by
  constructor
  · unfold resolvedOutputPath
    rw [if_pos h]
  · obtain ⟨fs2, h1, hp, -, -, h2⟩ := mkdirSem_total fs (resolvedOutputPath job)
    exact ⟨fs2, h1, hp, h2⟩

/-- C8, witness at a concrete input. -/
theorem C8_output_directory_witness :
    jobSep.separate_output_directories = true
    ∧ (resolvedOutputPath jobSep
        = jobSep.output_path ++ "/" ++ toString jobSep.index ++ "_"
          ++ replaceChar (pathName jobSep.mesh_path) '.' '_'
       ∧ ∃ fs2, mkdirSem [] (resolvedOutputPath jobSep) true true = .ok fs2
          ∧ resolvedOutputPath jobSep ∈ fs2
          ∧ mkdirSem fs2 (resolvedOutputPath jobSep) true true = .ok fs2) :=
  ⟨rfl, C8_output_directory jobSep [] rfl⟩

/-- C9 (code evaluated at the failing input): for a job whose import does not
report FINISHED no composition, material assignment or rendering happens; but
the engine is NOT torn down in every failure mode: an engine-reported failure
(`CANCELLED`) ends with the quit, while an unsupported extension raises at
the status check and the run ends without `quitEngine`. -/
theorem C9_teardown_after_failure :
    (runRenderMesh [] jobXyz ["FINISHED"] ⟨1, 1, 1⟩).trace
      = [Event.mkdirEv "out", Event.openScene, Event.importAttempt ".xyz"]
    ∧ (runRenderMesh [] jobXyz ["FINISHED"] ⟨1, 1, 1⟩).crashed
        = some (.typeError "argument of type int is not iterable")
    ∧ Event.quitEngine ∉ (runRenderMesh [] jobXyz ["FINISHED"] ⟨1, 1, 1⟩).trace
    ∧ (runRenderMesh [] jobPot ["CANCELLED"] ⟨1, 1, 1⟩).trace
      = [Event.mkdirEv "out", Event.openScene, Event.importAttempt ".ply",
         Event.engineImportOp ".ply", Event.quitEngine]
    ∧ (runRenderMesh [] jobPot ["CANCELLED"] ⟨1, 1, 1⟩).crashed = none := by
  refine ⟨by decide, by decide, by decide, by decide, by decide⟩

/-- C10: the output directory is created before the mesh import is attempted
(the mkdir event precedes the import-attempt event in every trace), so a job
that fails at import leaves its resolved output directory existing in the
final filesystem while adding no files beyond the created directories — in
particular no rendered images. -/
theorem C10_directory_created_before_import (fs0 : List String)
    (job : MeshQueueItem) (engineResult : List String) (d : Dims)
    (h : finishedCheck (importMesh (pySuffix (pathName job.mesh_path)) engineResult).1
          ≠ .ok true) :
    resolvedOutputPath job ∈ (runRenderMesh fs0 job engineResult d).fs
    ∧ (runRenderMesh fs0 job engineResult d).images = []
    ∧ (∀ f ∈ (runRenderMesh fs0 job engineResult d).fs,
        f ∈ fs0 ∨ f ∈ ancestors (resolvedOutputPath job)
          ∨ f = resolvedOutputPath job)
    ∧ ∃ rest, (runRenderMesh fs0 job engineResult d).trace
        = Event.mkdirEv (resolvedOutputPath job) :: Event.openScene
          :: Event.importAttempt (pySuffix (pathName job.mesh_path)) :: rest := by
  obtain ⟨fs2, h1, hp, -, hcont, -⟩ := mkdirSem_total fs0 (resolvedOutputPath job)
  rcases hfc : finishedCheck (importMesh (pySuffix (pathName job.mesh_path))
      engineResult).1 with e | b
  · simp only [runRenderMesh, h1, hfc]
    exact ⟨hp, trivial, hcont, _, rfl⟩
  · cases b
    · simp only [runRenderMesh, h1, hfc]
      exact ⟨hp, trivial, hcont, _, rfl⟩
    · exact absurd hfc h

/-- C10, witness at a concrete input. -/
theorem C10_directory_created_before_import_witness :
    (finishedCheck (importMesh (pySuffix (pathName jobXyz.mesh_path))
        ["FINISHED"]).1 ≠ .ok true)
    ∧ (resolvedOutputPath jobXyz ∈ (runRenderMesh [] jobXyz ["FINISHED"] ⟨1, 1, 1⟩).fs
       ∧ (runRenderMesh [] jobXyz ["FINISHED"] ⟨1, 1, 1⟩).images = []
       ∧ (∀ f ∈ (runRenderMesh [] jobXyz ["FINISHED"] ⟨1, 1, 1⟩).fs,
            f ∈ [] ∨ f ∈ ancestors (resolvedOutputPath jobXyz)
              ∨ f = resolvedOutputPath jobXyz)
       ∧ ∃ rest, (runRenderMesh [] jobXyz ["FINISHED"] ⟨1, 1, 1⟩).trace
            = Event.mkdirEv (resolvedOutputPath jobXyz) :: Event.openScene
              :: Event.importAttempt (pySuffix (pathName jobXyz.mesh_path)) :: rest) :=
  ⟨by decide, C10_directory_created_before_import [] jobXyz ["FINISHED"] ⟨1, 1, 1⟩
    (by decide)⟩
